import Mathlib

/-!
Shallow embedding of the EyeTracking core (`core/src/tracking_engine.cpp`,
class `TrackingEngine`) and verification of its specification.

Modelling conventions, fixed once here:

* `cv::Rect` / `cv::Size` carry `int` fields and are embedded over `ℤ`;
  all rectangle arithmetic is exact.
* `float` / `double` quantities (points, poses, gaze values, thresholds)
  are embedded over `ℝ`; literal constants such as `0.1f` are taken at
  their decimal value.  `cv::norm` of a 2-D point is `Real.sqrt` of the
  sum of squares.  Division by zero follows Lean's `x / 0 = 0`
  convention; that case only feeds values that are clamped afterwards,
  so no verified statement depends on it.
* Results of external model inference (Haar cascade `detectMultiScale`,
  YuNet / YOLO forward passes, contour extraction) depend on pixel data
  and model files and are supplied as oracle parameters: the list of
  detected eye rectangles, the per-backend detection results, the list
  of shoulder contour candidates (bounding rectangle plus contour
  area).  Everything downstream of those oracles is translated from the
  source.
* Out-of-bounds `std::vector::operator[]` access is undefined behaviour
  in the source; `estimateHeadPose` is therefore embedded with `Option`,
  returning `none` exactly when the source would index out of bounds.
* Boolean fields that compare real numbers (`eyes_focused`,
  `head_moving`, `shoulders_moving`) are embedded as `Prop`, since
  comparison of real numbers is not decidable.
-/

namespace EyeTracking

/-- `cv::Rect`: axis-aligned rectangle, integer origin and extent. -/
structure Rect where
  x : Int
  y : Int
  w : Int
  h : Int
deriving DecidableEq, Repr

/-- `cv::Rect()`: the canonical all-zero empty region. -/
def emptyRect : Rect := ⟨0, 0, 0, 0⟩

/-- `cv::Rect::area()` = width * height. -/
def Rect.area (r : Rect) : Int := r.w * r.h

/-- `cv::Size`: frame dimensions. -/
structure Size where
  width : Int
  height : Int
deriving DecidableEq, Repr

/-- `cv::Rect::operator&`: intersection of two rectangles; OpenCV
returns the canonical empty rectangle when the intersection has
non-positive width or height. -/
def rectInter (a b : Rect) : Rect :=
  if min (a.x + a.w) (b.x + b.w) - max a.x b.x ≤ 0 ∨
      min (a.y + a.h) (b.y + b.h) - max a.y b.y ≤ 0 then emptyRect
  else
    ⟨max a.x b.x, max a.y b.y,
     min (a.x + a.w) (b.x + b.w) - max a.x b.x,
     min (a.y + a.h) (b.y + b.h) - max a.y b.y⟩

lemma rectInter_cases (a b : Rect) :
    rectInter a b = emptyRect ∨
      (rectInter a b =
          ⟨max a.x b.x, max a.y b.y,
           min (a.x + a.w) (b.x + b.w) - max a.x b.x,
           min (a.y + a.h) (b.y + b.h) - max a.y b.y⟩ ∧
        0 < min (a.x + a.w) (b.x + b.w) - max a.x b.x ∧
        0 < min (a.y + a.h) (b.y + b.h) - max a.y b.y) := by
  unfold rectInter
  split
  · exact Or.inl rfl
  · rename_i hc
    push_neg at hc
    exact Or.inr ⟨rfl, by omega, by omega⟩

/-- `TrackingEngine::clampRectToFrame` (tracking_engine.cpp:585-595). -/
def clampRectToFrame (rect : Rect) (size : Size) : Rect :=
  if rect.w ≤ 0 ∨ rect.h ≤ 0 ∨ size.width ≤ 0 ∨ size.height ≤ 0 then emptyRect
  else if (rectInter rect ⟨0, 0, size.width, size.height⟩).w ≤ 0 ∨
      (rectInter rect ⟨0, 0, size.width, size.height⟩).h ≤ 0 then emptyRect
  else rectInter rect ⟨0, 0, size.width, size.height⟩

/-- `TrackingEngine::expandFaceRect` (tracking_engine.cpp:597-626).
Expansion amounts in the source are `static_cast<int>` truncations of
`float` products (`width * 0.10f`, `height * 0.30f`, `height * 0.20f`);
in the expansion branch width and height are positive, where truncation
coincides with integer division. -/
def expandFaceRect (face_rect : Rect) (frame_size : Size) : Rect :=
  if face_rect.w ≤ 0 ∨ face_rect.h ≤ 0 ∨
      frame_size.width ≤ 0 ∨ frame_size.height ≤ 0 then face_rect
  else
    let expand_width := face_rect.w / 10
    let expand_top := face_rect.h * 3 / 10
    let expand_bottom := face_rect.h / 5
    clampRectToFrame
      ⟨face_rect.x - expand_width, face_rect.y - expand_top,
       face_rect.w + 2 * expand_width, face_rect.h + expand_top + expand_bottom⟩
      frame_size

/-- The spec's containment property (§8): a region lies fully inside the
frame `[0, 0, s.width, s.height)`. -/
def insideFrame (r : Rect) (s : Size) : Prop :=
  0 ≤ r.x ∧ 0 ≤ r.y ∧ r.x + r.w ≤ s.width ∧ r.y + r.h ≤ s.height

lemma clampRectToFrame_cases (r : Rect) (s : Size) :
    clampRectToFrame r s = emptyRect ∨
      (0 < (clampRectToFrame r s).w ∧ 0 < (clampRectToFrame r s).h ∧
        insideFrame (clampRectToFrame r s) s) := by
  unfold clampRectToFrame
  split
  · exact Or.inl rfl
  · rename_i hdeg
    push_neg at hdeg
    rcases rectInter_cases r ⟨0, 0, s.width, s.height⟩ with hI | ⟨hI, hw, hh⟩
    · rw [hI]
      simp [emptyRect]
    · rw [hI]
      dsimp only at hw hh ⊢
      rw [if_neg (by omega)]
      dsimp only
      refine Or.inr ⟨by omega, by omega, ?_⟩
      simp only [insideFrame]
      exact ⟨by omega, by omega, by omega, by omega⟩

lemma clampRectToFrame_within (r : Rect) (s : Size)
    (hsw : 0 < s.width) (hsh : 0 < s.height) :
    0 ≤ (clampRectToFrame r s).x ∧ 0 ≤ (clampRectToFrame r s).y ∧
      (clampRectToFrame r s).x + (clampRectToFrame r s).w ≤ s.width ∧
      (clampRectToFrame r s).y + (clampRectToFrame r s).h ≤ s.height := by
  rcases clampRectToFrame_cases r s with h | ⟨_, _, h⟩
  · rw [h]
    simp only [emptyRect]
    omega
  · obtain ⟨h1, h2, h3, h4⟩ := h
    exact ⟨h1, h2, h3, h4⟩

/-- C8: for every rectangle and frame size, `clampRectToFrame` yields either
the canonical empty region or a rectangle with positive extent fully contained
in the frame bounds; and for every valid (positive-extent) input region and
positive frame size, `expandFaceRect` (grow by 10% per side, 30% up, 20% down,
then clamp) yields a region with non-negative origin whose extent stays within
the frame bounds. -/
theorem clamp_expand_bounds :
    (∀ (r : Rect) (s : Size),
      clampRectToFrame r s = emptyRect ∨
        (0 < (clampRectToFrame r s).w ∧ 0 < (clampRectToFrame r s).h ∧
          insideFrame (clampRectToFrame r s) s)) ∧
    (∀ (r : Rect) (s : Size), 0 < r.w → 0 < r.h → 0 < s.width → 0 < s.height →
      0 ≤ (expandFaceRect r s).x ∧ 0 ≤ (expandFaceRect r s).y ∧
        (expandFaceRect r s).x + (expandFaceRect r s).w ≤ s.width ∧
        (expandFaceRect r s).y + (expandFaceRect r s).h ≤ s.height) := by
  refine ⟨clampRectToFrame_cases, ?_⟩
  intro r s hrw hrh hsw hsh
  simp only [expandFaceRect]
  rw [if_neg (by omega)]
  exact clampRectToFrame_within _ s hsw hsh

/-- Witness for the `expandFaceRect` half of `clamp_expand_bounds`: a valid
region partly outside a positive frame is expanded and clamped back inside. -/
theorem clamp_expand_bounds_witness :
    0 ≤ (expandFaceRect ⟨-5, -5, 30, 30⟩ ⟨40, 40⟩).x ∧
    0 ≤ (expandFaceRect ⟨-5, -5, 30, 30⟩ ⟨40, 40⟩).y ∧
    (expandFaceRect ⟨-5, -5, 30, 30⟩ ⟨40, 40⟩).x +
      (expandFaceRect ⟨-5, -5, 30, 30⟩ ⟨40, 40⟩).w ≤ 40 ∧
    (expandFaceRect ⟨-5, -5, 30, 30⟩ ⟨40, 40⟩).y +
      (expandFaceRect ⟨-5, -5, 30, 30⟩ ⟨40, 40⟩).h ≤ 40 :=
  clamp_expand_bounds.2 ⟨-5, -5, 30, 30⟩ ⟨40, 40⟩
    (by decide) (by decide) (by decide) (by decide)

/-! ## Detector selector (`TrackingEngine::detectFace`, tracking_engine.cpp:172-212) -/

/-- `TrackingEngine::FaceDetectorBackend` (tracking_engine.h:70-75). -/
inductive FaceDetectorBackend where
  | Auto
  | YOLO
  | YuNet
  | HaarCascade
deriving DecidableEq, Repr

open FaceDetectorBackend

/-- The preference list built by the switch in `detectFace`
(tracking_engine.cpp:175-189); `Auto` and the default case use the same
order as `YOLO`. -/
def tryOrder : FaceDetectorBackend → List FaceDetectorBackend
  | YOLO => [YOLO, YuNet, HaarCascade]
  | YuNet => [YuNet, YOLO, HaarCascade]
  | HaarCascade => [HaarCascade, YuNet, YOLO]
  | Auto => [YOLO, YuNet, HaarCascade]

/-- Inner dispatch of `detectFace` (tracking_engine.cpp:191-205): the
regions produced by `detectFaceWithYolo` / `detectFaceWithYuNet` /
`detectFaceWithCascade` on the current frame are oracle parameters;
the `default: continue` branch behaves like an empty result. -/
def backendResult (yolo yunet haar : Rect) : FaceDetectorBackend → Rect
  | YOLO => yolo
  | YuNet => yunet
  | HaarCascade => haar
  | Auto => emptyRect

/-- `TrackingEngine::detectFace`: walk the preference list and return the
first region with positive area, else the canonical empty region. -/
def detectFace (pref : FaceDetectorBackend) (yolo yunet haar : Rect) : Rect :=
  match (tryOrder pref).find?
      (fun b => decide (0 < (backendResult yolo yunet haar b).area)) with
  | some b => backendResult yolo yunet haar b
  | none => emptyRect

/-- Modelled from the spec (§4.3), for refinement only: the try-order is
the explicitly chosen backend first, then the other two in the fixed
tie-break order YuNet before YOLO before cascade; `Auto` uses
YOLO, YuNet, cascade. -/
def specTryOrder : FaceDetectorBackend → List FaceDetectorBackend
  | Auto => [YOLO, YuNet, HaarCascade]
  | b => b :: [YuNet, YOLO, HaarCascade].filter (fun c => decide (c ≠ b))

/-- Modelled from the spec (§4.3), for refinement only: call the backends
in spec order and return the first non-empty region. -/
def specSelect (pref : FaceDetectorBackend) (yolo yunet haar : Rect) : Rect :=
  match (specTryOrder pref).find?
      (fun b => decide (backendResult yolo yunet haar b ≠ emptyRect)) with
  | some b => backendResult yolo yunet haar b
  | none => emptyRect

/-- A backend's output is canonical: either the canonical empty region or a
region with positive width and height (guaranteed in the source by
`clampRectToFrame` / `expandFaceRect` on every return path). -/
def canonicalRegion (r : Rect) : Prop :=
  r = emptyRect ∨ (0 < r.w ∧ 0 < r.h)

/-- C2: for every configured preference the selector tries the backends in
the deterministic spec order (explicit backend first, fixed tie-break,
Auto = YOLO then YuNet then cascade) and returns the first non-empty region;
it returns the empty region iff all three backend results are empty; in
particular if only the cascade result is non-empty, that region is
returned. -/
theorem detectFace_selector_spec (pref : FaceDetectorBackend)
    (yolo yunet haar : Rect)
    (hy : canonicalRegion yolo) (hu : canonicalRegion yunet)
    (hh : canonicalRegion haar) :
    detectFace pref yolo yunet haar = specSelect pref yolo yunet haar ∧
    (detectFace pref yolo yunet haar = emptyRect ↔
      yolo = emptyRect ∧ yunet = emptyRect ∧ haar = emptyRect) ∧
    (yolo = emptyRect → yunet = emptyRect → haar ≠ emptyRect →
      detectFace pref yolo yunet haar = haar) := by
  have harea : ∀ r : Rect, canonicalRegion r →
      (decide (0 < r.area) = decide (r ≠ emptyRect)) := by
    rintro r (rfl | ⟨h1, h2⟩)
    · simp [emptyRect, Rect.area]
    · have hpos : 0 < r.area := mul_pos h1 h2
      have hne : r ≠ emptyRect := by
        rintro rfl
        simp [emptyRect] at h1
      simp [hpos, hne]
  have hy' := harea yolo hy
  have hu' := harea yunet hu
  have hh' := harea haar hh
  cases pref <;>
    rcases hy with rfl | ⟨hy1, hy2⟩ <;>
    rcases hu with rfl | ⟨hu1, hu2⟩ <;>
    rcases hh with rfl | ⟨hh1, hh2⟩ <;>
    · simp only [detectFace, specSelect, tryOrder, specTryOrder, backendResult,
        List.find?, List.filter] at *
      simp_all [emptyRect, Rect.area, mul_pos]
      try omega

/-- Witness for `detectFace_selector_spec`: with preference `Auto`, YOLO and
YuNet empty and only the cascade producing a region, that region is
returned and the result is not empty. -/
theorem detectFace_selector_spec_witness :
    detectFace Auto emptyRect emptyRect ⟨2, 3, 10, 20⟩ =
        specSelect Auto emptyRect emptyRect ⟨2, 3, 10, 20⟩ ∧
      (detectFace Auto emptyRect emptyRect ⟨2, 3, 10, 20⟩ = emptyRect ↔
        emptyRect = emptyRect ∧ emptyRect = emptyRect ∧
          (⟨2, 3, 10, 20⟩ : Rect) = emptyRect) ∧
      (emptyRect = emptyRect → emptyRect = emptyRect →
        (⟨2, 3, 10, 20⟩ : Rect) ≠ emptyRect →
        detectFace Auto emptyRect emptyRect ⟨2, 3, 10, 20⟩ = ⟨2, 3, 10, 20⟩) :=
  detectFace_selector_spec Auto emptyRect emptyRect ⟨2, 3, 10, 20⟩
    (Or.inl rfl) (Or.inl rfl) (Or.inr ⟨by decide, by decide⟩)

/-! ## Lazy per-backend load state
(`ensureFaceDetector` tracking_engine.cpp:328-372,
`ensureCascadeClassifier` tracking_engine.cpp:374-442,
`ensureYoloFaceNet` tracking_engine.cpp:444-488,
`setYoloModelVariant` tracking_engine.cpp:1311-1320).
Filesystem probing and model parsing are external; whether the load
attempt would succeed is the oracle parameter `loadOk`. -/

/-- Load bookkeeping shared by the YuNet detector
(`face_detector_load_attempted_` plus the nonemptiness of
`yunet_face_detector_`) and the Haar cascade
(`cascade_load_attempted_` plus the nonemptiness of
`fallback_face_cascade_`). -/
structure LoadState where
  attempted : Bool
  loaded : Bool
deriving DecidableEq, Repr

/-- YOLO load bookkeeping: `yolo_load_attempted_`, `yolo_net_loaded_` and
the active `yolo_model_variant_`. -/
structure YoloState where
  attempted : Bool
  loaded : Bool
  variant : String
deriving DecidableEq, Repr

/-- `TrackingEngine::ensureFaceDetector`: already-loaded short-circuits to
true; an earlier attempt short-circuits to false; otherwise mark attempted
and record the external load outcome. -/
def ensureFaceDetector (st : LoadState) (loadOk : Bool) : Bool × LoadState :=
  if st.loaded then (true, st)
  else if st.attempted then (false, st)
  else (loadOk, ⟨true, loadOk⟩)

/-- `TrackingEngine::ensureCascadeClassifier`: same shape as
`ensureFaceDetector` over its own pair of flags. -/
def ensureCascadeClassifier (st : LoadState) (loadOk : Bool) : Bool × LoadState :=
  if st.loaded then (true, st)
  else if st.attempted then (false, st)
  else (loadOk, ⟨true, loadOk⟩)

/-- `TrackingEngine::ensureYoloFaceNet` (tracking_engine.cpp:444-488). -/
def ensureYoloFaceNet (st : YoloState) (loadOk : Bool) : Bool × YoloState :=
  if st.loaded then (true, st)
  else if st.attempted then (false, st)
  else (loadOk, ⟨true, loadOk, st.variant⟩)

/-- `TrackingEngine::setYoloModelVariant` (tracking_engine.cpp:1311-1320):
a different variant clears both flags and the cached network; the same
variant is a no-op. -/
def setYoloModelVariant (st : YoloState) (variant : String) : YoloState :=
  if st.variant = variant then st else ⟨false, false, variant⟩

/-- `TrackingEngine::detectFaceWithYolo` (tracking_engine.cpp:1138-1210):
when `ensureYoloFaceNet` fails or the frame is empty the empty region is
returned; otherwise the result of the network forward pass, NMS, clamp and
expand is the oracle `inferred`. -/
def detectFaceWithYolo (st : YoloState) (loadOk : Bool) (frameEmpty : Bool)
    (inferred : Rect) : Rect × YoloState :=
  let e := ensureYoloFaceNet st loadOk
  if e.1 = false ∨ frameEmpty then (emptyRect, e.2) else (inferred, e.2)

/-- `TrackingEngine::detectFaceWithYuNet` (tracking_engine.cpp:214-286), in
its enabled (`EYETRACKING_HAS_YUNET`) form: when `ensureFaceDetector`
fails or the frame is empty the empty region is returned; the network
inference, candidate scoring, clamping and expansion (every failure path
of which also yields the empty region) is the oracle `detected`. -/
def detectFaceWithYuNet (st : LoadState) (loadOk : Bool) (frameEmpty : Bool)
    (detected : Rect) : Rect × LoadState :=
  let e := ensureFaceDetector st loadOk
  if e.1 = false ∨ frameEmpty then (emptyRect, e.2) else (detected, e.2)

/-- The `std::max_element` pick of `detectFaceWithCascade`
(tracking_engine.cpp:316-322): the first rectangle of largest area. -/
def largestByArea (head : Rect) (tail : List Rect) : Rect :=
  tail.foldl (fun best r => if best.area < r.area then r else best) head

/-- `TrackingEngine::detectFaceWithCascade` (tracking_engine.cpp:288-326):
when `ensureCascadeClassifier` fails or the frame is empty the empty
region is returned; the cascade's `detectMultiScale` output is the oracle
`faces`, empty output yields the empty region, and otherwise the largest
candidate by area is expanded against the frame. -/
def detectFaceWithCascade (st : LoadState) (loadOk : Bool) (frameEmpty : Bool)
    (faces : List Rect) (frame_size : Size) : Rect × LoadState :=
  let e := ensureCascadeClassifier st loadOk
  if e.1 = false ∨ frameEmpty then (emptyRect, e.2)
  else
    match faces with
    | [] => (emptyRect, e.2)
    | f :: rest => (expandFaceRect (largestByArea f rest) frame_size, e.2)

/-- C6 counterexample: the claim says that once a YOLO load attempt has
failed, no subsequent operation within the Engine's lifetime attempts the
load again.  But `setYoloModelVariant` with a different variant clears the
attempted flag, and the next `ensureYoloFaceNet` performs (and here
succeeds at) a fresh load attempt. -/
theorem load_failure_sticky_counterexample :
    (setYoloModelVariant ⟨true, false, "m"⟩ "n").attempted = false ∧
    (ensureYoloFaceNet (setYoloModelVariant ⟨true, false, "m"⟩ "n") true).1
        = true ∧
    (ensureYoloFaceNet (setYoloModelVariant ⟨true, false, "m"⟩ "n") true).2.loaded
        = true := by
  refine ⟨?_, ?_, ?_⟩ <;>
    simp [setYoloModelVariant, ensureYoloFaceNet]

/-- C6 amended: a failed load is sticky for every backend under all
detection-path operations — `ensure*` returns false without a new attempt
and leaves the state unchanged, and `detect` on each of the three backends
(YOLO, YuNet, Haar cascade) returns the empty region — and under
`setYoloModelVariant` with the unchanged variant; only
`setYoloModelVariant` with a different variant resets the YOLO load state
(so the new variant is loaded on next use). -/
theorem load_failure_sticky (yst : YoloState) (lst : LoadState)
    (hy : yst.attempted = true ∧ yst.loaded = false)
    (hl : lst.attempted = true ∧ lst.loaded = false)
    (loadOk : Bool) (frameEmpty : Bool) (inferred detected : Rect)
    (faces : List Rect) (frame_size : Size) :
    ensureYoloFaceNet yst loadOk = (false, yst) ∧
    detectFaceWithYolo yst loadOk frameEmpty inferred = (emptyRect, yst) ∧
    setYoloModelVariant yst yst.variant = yst ∧
    ensureFaceDetector lst loadOk = (false, lst) ∧
    ensureCascadeClassifier lst loadOk = (false, lst) ∧
    detectFaceWithYuNet lst loadOk frameEmpty detected = (emptyRect, lst) ∧
    detectFaceWithCascade lst loadOk frameEmpty faces frame_size =
        (emptyRect, lst) := by
  obtain ⟨hya, hyl⟩ := hy
  obtain ⟨hla, hll⟩ := hl
  refine ⟨?_, ?_, ?_, ?_, ?_, ?_, ?_⟩ <;>
    simp [ensureYoloFaceNet, detectFaceWithYolo, setYoloModelVariant,
      ensureFaceDetector, ensureCascadeClassifier, detectFaceWithYuNet,
      detectFaceWithCascade, hya, hyl, hla, hll]

/-- Witness for `load_failure_sticky` at a concrete failed state: all three
backends refuse to retry and their detect entry points return the empty
region. -/
theorem load_failure_sticky_witness :
    ensureYoloFaceNet ⟨true, false, "m"⟩ true = (false, ⟨true, false, "m"⟩) ∧
    detectFaceWithYolo ⟨true, false, "m"⟩ true false ⟨1, 1, 5, 5⟩ =
        (emptyRect, ⟨true, false, "m"⟩) ∧
    setYoloModelVariant ⟨true, false, "m"⟩ (YoloState.variant ⟨true, false, "m"⟩) =
        ⟨true, false, "m"⟩ ∧
    ensureFaceDetector ⟨true, false⟩ true = (false, ⟨true, false⟩) ∧
    ensureCascadeClassifier ⟨true, false⟩ true = (false, ⟨true, false⟩) ∧
    detectFaceWithYuNet ⟨true, false⟩ true false ⟨1, 1, 5, 5⟩ =
        (emptyRect, ⟨true, false⟩) ∧
    detectFaceWithCascade ⟨true, false⟩ true false [⟨1, 1, 5, 5⟩] ⟨100, 100⟩ =
        (emptyRect, ⟨true, false⟩) :=
  load_failure_sticky ⟨true, false, "m"⟩ ⟨true, false⟩
    ⟨rfl, rfl⟩ ⟨rfl, rfl⟩ true false ⟨1, 1, 5, 5⟩ ⟨1, 1, 5, 5⟩
    [⟨1, 1, 5, 5⟩] ⟨100, 100⟩

/-! ## Geometry pipeline: landmarks, gaze, head pose, movement -/

/-- `cv::Point2f`, embedded over `ℝ`. -/
abbrev Point := ℝ × ℝ

/-- `cv::Vec3f` pose: (pitch, yaw, roll). -/
abbrev Pose := ℝ × ℝ × ℝ

/-- `cv::norm` of a 2-D point: the Euclidean norm. -/
noncomputable def cvNorm (v : Point) : ℝ := Real.sqrt (v.1 ^ 2 + v.2 ^ 2)

/-- `TrackingEngine::detectEyes` (tracking_engine.cpp:641-703): the eye
cascade's `detectMultiScale` output on the face region is the oracle
`eyeRects`; each detected rectangle is converted to its centre point. -/
noncomputable def detectEyes (eyeRects : List Rect) : List Point :=
  eyeRects.map (fun e => ((e.x : ℝ) + (e.w : ℝ) / 2, (e.y : ℝ) + (e.h : ℝ) / 2))

/-- `TrackingEngine::estimateGaze` (tracking_engine.cpp:705-738). -/
noncomputable def estimateGaze (eye_points : List Point) : Point :=
  if eye_points.length < 4 then (0, 0)
  else
    let left_eye_center := eye_points.getD 0 (0, 0)
    let right_eye_center := eye_points.getD 1 (0, 0)
    let eye_distance := cvNorm (left_eye_center.1 - right_eye_center.1,
      left_eye_center.2 - right_eye_center.2)
    let gaze_x := (left_eye_center.1 - right_eye_center.1) / eye_distance
    let gaze_y :=
      if 6 ≤ eye_points.length then
        let p2 := eye_points.getD 2 (0, 0)
        let p3 := eye_points.getD 3 (0, 0)
        let p4 := eye_points.getD 4 (0, 0)
        let p5 := eye_points.getD 5 (0, 0)
        let left_eye_width := cvNorm (p2.1 - p3.1, p2.2 - p3.2)
        let left_eye_height := cvNorm (p2.1 - p3.1, p3.2 - p2.2)
        let right_eye_width := cvNorm (p4.1 - p5.1, p4.2 - p5.2)
        let right_eye_height := cvNorm (p4.1 - p5.1, p5.2 - p4.2)
        let left_aspect := left_eye_height / left_eye_width
        let right_aspect := right_eye_height / right_eye_width
        let avg_aspect := (left_aspect + right_aspect) / 2
        max (-1) (min 1 ((avg_aspect - 0.3) / 0.2))
      else 0
    (gaze_x, gaze_y)

/-- Sort rectangles by x (`std::sort` with comparator `a.x < b.x`),
used for eye and shoulder candidates. -/
def sortByX (l : List Rect) : List Rect :=
  l.mergeSort (fun a b => decide (a.x ≤ b.x))

/-- `TrackingEngine::detectFaceLandmarks` (tracking_engine.cpp:740-849).
The eye cascade's `detectMultiScale` output on the face region is the
oracle `eyes`; everything after it is the source's landmark layout: four
face corners, then six eye points (two centres plus four synthesised
corners) when at least two eye candidates exist or two proportional eye
centres otherwise, then the nose tip and the two mouth corners. -/
noncomputable def detectFaceLandmarks (eyes : List Rect) (face_roi : Rect) : List Point :=
  let face_x : ℝ := (face_roi.x : ℝ)
  let face_y : ℝ := (face_roi.y : ℝ)
  let face_w : ℝ := (face_roi.w : ℝ)
  let face_h : ℝ := (face_roi.h : ℝ)
  let corners : List Point :=
    [(face_x, face_y), (face_x + face_w, face_y),
     (face_x, face_y + face_h), (face_x + face_w, face_y + face_h)]
  let eyePart : List Point :=
    if 2 ≤ eyes.length then
      let sorted := sortByX eyes
      let e0 := sorted.getD 0 emptyRect
      let e1 := sorted.getD 1 emptyRect
      let lc : Point := (face_x + (e0.x : ℝ) + (e0.w : ℝ) / 2,
        face_y + (e0.y : ℝ) + (e0.h : ℝ) / 2)
      let rc : Point := (face_x + (e1.x : ℝ) + (e1.w : ℝ) / 2,
        face_y + (e1.y : ℝ) + (e1.h : ℝ) / 2)
      [lc, rc,
       (lc.1 - (e0.w : ℝ) / 3, lc.2), (lc.1 + (e0.w : ℝ) / 3, lc.2),
       (rc.1 - (e1.w : ℝ) / 3, rc.2), (rc.1 + (e1.w : ℝ) / 3, rc.2)]
    else
      let eye_y := face_y + face_h * 0.3
      let eye_spacing := face_w * 0.25
      [(face_x + face_w / 2 - eye_spacing, eye_y),
       (face_x + face_w / 2 + eye_spacing, eye_y)]
  let nose : Point := (face_x + face_w / 2, face_y + face_h * 0.5)
  let mouth_y := face_y + face_h * 0.75
  let mouth_width := face_w * 0.4
  corners ++ eyePart ++
    [nose,
     (face_x + face_w / 2 - mouth_width / 2, mouth_y),
     (face_x + face_w / 2 + mouth_width / 2, mouth_y)]

/-- `TrackingEngine::estimateHeadPose` (tracking_engine.cpp:851-899).
The source guards only `size < 10` and then indexes positions 4, 5, 10,
11, 12 with `std::vector::operator[]`; positions 10-12 are out of bounds
(undefined behaviour) for lists of length 10-12, so the embedding returns
`none` exactly there. -/
noncomputable def estimateHeadPose (face_points : List Point) : Option Pose :=
  if face_points.length < 10 then some (0, 0, 0)
  else
    match face_points[10]?, face_points[11]?, face_points[12]? with
    | some nose, some left_mouth, some right_mouth =>
      let left_eye := face_points.getD 4 (0, 0)
      let right_eye := face_points.getD 5 (0, 0)
      let eye_center : Point := ((left_eye.1 + right_eye.1) * 0.5,
        (left_eye.2 + right_eye.2) * 0.5)
      let eye_vector : Point := (right_eye.1 - left_eye.1,
        right_eye.2 - left_eye.2)
      let eye_distance := cvNorm eye_vector
      let evn : Point :=
        if 0 < eye_distance then
          (eye_vector.1 / eye_distance, eye_vector.2 / eye_distance)
        else eye_vector
      let yaw := -evn.2
      let nose_to_eye_distance := nose.2 - eye_center.2
      let expected_nose_distance := eye_distance * 0.8
      let pitch := (nose_to_eye_distance - expected_nose_distance) /
        expected_nose_distance
      let mouth_center_x := (left_mouth.1 + right_mouth.1) * 0.5
      let face_center_x := ((face_points.getD 0 (0, 0)).1 +
        (face_points.getD 1 (0, 0)).1) * 0.5
      let mouth_offset := mouth_center_x - face_center_x
      let roll := mouth_offset / eye_distance
      some (max (-1) (min 1 pitch), max (-1) (min 1 yaw),
        max (-0.5) (min 0.5 roll))
    | _, _, _ => none

/-- `TrackingEngine::detectHeadMovement` (tracking_engine.cpp:901-912). -/
def detectHeadMovement (current_pose previous_pose : Pose) : Prop :=
  let movement_threshold : ℝ := 0.1
  let pitch_diff := |current_pose.1 - previous_pose.1|
  let yaw_diff := |current_pose.2.1 - previous_pose.2.1|
  let roll_diff := |current_pose.2.2 - previous_pose.2.2|
  pitch_diff > movement_threshold ∨ yaw_diff > movement_threshold ∨
    roll_diff > movement_threshold

/-- `TrackingEngine::detectShoulders` (tracking_engine.cpp:914-980).
Blur, Canny edge detection and contour extraction are external; the
oracle `cands` is the contour list, each as its bounding rectangle paired
with its `cv::contourArea` (a rational, since the claims only inspect the
filter's comparisons).  The vertical ROI offset `frame_height * 0.6f`
truncated to int is modelled as integer division (`frame_height ≥ 0`
whenever a frame reaches this point). -/
noncomputable def detectShoulders (cands : List (Rect × ℚ)) (frame_width frame_height : ℤ) :
    List Point :=
  let roi_y : ℤ := frame_height * 3 / 5
  let shoulder_candidates :=
    (cands.filter (fun c =>
      decide (500 < c.2 ∧ c.2 < 10000 ∧
        (1 : ℚ) / 2 < (c.1.w : ℚ) / (c.1.h : ℚ) ∧
        (c.1.w : ℚ) / (c.1.h : ℚ) < 3))).map Prod.fst
  let sorted := sortByX shoulder_candidates
  if 2 ≤ sorted.length then
    let left_shoulder := sorted.getD 0 emptyRect
    let right_shoulder := sorted.getD (sorted.length - 1) emptyRect
    [((left_shoulder.x : ℝ) + (left_shoulder.w : ℝ) / 2,
      (roi_y : ℝ) + (left_shoulder.y : ℝ) + (left_shoulder.h : ℝ) / 2),
     ((right_shoulder.x : ℝ) + (right_shoulder.w : ℝ) / 2,
      (roi_y : ℝ) + (right_shoulder.y : ℝ) + (right_shoulder.h : ℝ) / 2)]
  else
    [((frame_width : ℝ) * 0.25, (frame_height : ℝ) * 0.8),
     ((frame_width : ℝ) * 0.75, (frame_height : ℝ) * 0.8)]

/-- `TrackingEngine::detectShoulderMovement` (tracking_engine.cpp:982-994). -/
def detectShoulderMovement (current_points previous_points : List Point) :
    Prop :=
  if current_points.length = 2 ∧ previous_points.length = 2 then
    let c0 := current_points.getD 0 (0, 0)
    let c1 := current_points.getD 1 (0, 0)
    let p0 := previous_points.getD 0 (0, 0)
    let p1 := previous_points.getD 1 (0, 0)
    let movement_threshold : ℝ := 10
    cvNorm (c0.1 - p0.1, c0.2 - p0.2) > movement_threshold ∨
      cvNorm (c1.1 - p1.1, c1.2 - p1.2) > movement_threshold
  else False

/-! ## Landmark layout and head-pose claims -/

lemma detectFaceLandmarks_length (eyes : List Rect) (face_roi : Rect) :
    (detectFaceLandmarks eyes face_roi).length =
      if 2 ≤ eyes.length then 13 else 9 := by
  by_cases h : 2 ≤ eyes.length <;>
    simp [detectFaceLandmarks, h]

lemma detectFaceLandmarks_length_cases (eyes : List Rect) (face_roi : Rect) :
    (detectFaceLandmarks eyes face_roi).length = 9 ∨
      (detectFaceLandmarks eyes face_roi).length = 13 := by
  rw [detectFaceLandmarks_length]
  by_cases h : 2 ≤ eyes.length <;> simp [h]

lemma estimateHeadPose_landmarks_isSome (eyes : List Rect) (face_roi : Rect) :
    (estimateHeadPose (detectFaceLandmarks eyes face_roi)).isSome = true := by
  rcases detectFaceLandmarks_length_cases eyes face_roi with h | h
  · unfold estimateHeadPose
    rw [if_pos (by omega)]
    rfl
  · unfold estimateHeadPose
    rw [if_neg (by omega)]
    rw [List.getElem?_eq_getElem (by omega), List.getElem?_eq_getElem (by omega),
      List.getElem?_eq_getElem (by omega)]
    rfl

/-- C1 counterexample: with no detected eye candidates the landmark list
has only 9 points — the four eye-corner points of the claimed full
fixed layout are absent — so the output is not always the 13-point full
layout. -/
theorem landmarks_full_layout_counterexample :
    (detectFaceLandmarks [] ⟨0, 0, 100, 100⟩).length ≠ 13 := by
  simp [detectFaceLandmarks]

/-- C1 amended: the landmark list is always completely populated in a fixed
positional layout, but it is the full 13-point layout (four face corners,
two eye centres, four eye corners, nose, two mouth corners) only when at
least two eye candidates are detected; with fewer it is the degraded
9-point layout (four face corners, two proportional eye centres, nose,
two mouth corners) without eye-corner points. -/
theorem landmarks_layout_total (eyes : List Rect) (face_roi : Rect) :
    (detectFaceLandmarks eyes face_roi).length =
      if 2 ≤ eyes.length then 13 else 9 :=
  detectFaceLandmarks_length eyes face_roi

/-- C10: every pipeline landmark list has exactly 9 or exactly 13 points;
on any such list `estimateHeadPose` never indexes out of bounds (it returns
an actual pose), while the size-at-least-10 guard alone does not prevent
out-of-bounds indexing for arbitrary lists of length 10 to 12 — at length
10 the source's accesses at positions 10-12 are out of bounds, which the
embedding reports as `none`. -/
theorem landmarks_pose_index_safety :
    (∀ (eyes : List Rect) (face_roi : Rect),
      (detectFaceLandmarks eyes face_roi).length = 9 ∨
        (detectFaceLandmarks eyes face_roi).length = 13) ∧
    (∀ (eyes : List Rect) (face_roi : Rect),
      (estimateHeadPose (detectFaceLandmarks eyes face_roi)).isSome = true) ∧
    estimateHeadPose (List.replicate 10 ((0 : ℝ), (0 : ℝ))) = none := by
  refine ⟨detectFaceLandmarks_length_cases, estimateHeadPose_landmarks_isSome, ?_⟩
  unfold estimateHeadPose
  rw [if_neg (by simp)]
  rw [List.getElem?_eq_none (by simp)]

/-- C3: whenever `estimateHeadPose` returns a pose, its pitch and yaw lie in
`[-1, 1]` and its roll lies in `[-0.5, 0.5]` (the final clamp; the
short-landmark branch returns the zero pose, also in range).  For lists of
length 10-12 the source's unguarded indexing is undefined behaviour and no
pose is returned (see `landmarks_pose_index_safety`). -/
theorem headPose_clamp_invariant (face_points : List Point) (p : Pose)
    (h : estimateHeadPose face_points = some p) :
    -1 ≤ p.1 ∧ p.1 ≤ 1 ∧ -1 ≤ p.2.1 ∧ p.2.1 ≤ 1 ∧
      -0.5 ≤ p.2.2 ∧ p.2.2 ≤ 0.5 := by
  unfold estimateHeadPose at h
  split at h
  · obtain rfl : (0, 0, 0) = p := by injection h
    norm_num
  · split at h
    · rename_i nose lm rm heq
      obtain rfl := (Option.some_injective _ h).symm
      refine ⟨le_max_left _ _, ?_, le_max_left _ _, ?_, le_max_left _ _, ?_⟩ <;>
        exact max_le (by norm_num) (min_le_left _ _)
    · exact absurd h (by simp)

/-- Witness for `headPose_clamp_invariant` at the empty landmark list, whose
pose is the zero pose. -/
theorem headPose_clamp_invariant_witness :
    estimateHeadPose ([] : List Point) = some (0, 0, 0) ∧
      (-1 ≤ (0 : ℝ) ∧ (0 : ℝ) ≤ 1 ∧ -1 ≤ (0 : ℝ) ∧ (0 : ℝ) ≤ 1 ∧
        -0.5 ≤ (0 : ℝ) ∧ (0 : ℝ) ≤ 0.5) :=
  ⟨by simp [estimateHeadPose],
   headPose_clamp_invariant [] (0, 0, 0) (by simp [estimateHeadPose])⟩

/-! ## Movement detectors -/

/-- C4: head movement is flagged iff one of the per-axis pose deltas
strictly exceeds 0.1, and shoulder movement (given the required two points
on each side) is flagged iff the Euclidean displacement of the left or
right shoulder point strictly exceeds 10 pixels — stated via the
equivalent comparison of squared displacement with 100, so a displacement
of exactly the threshold does not flag movement. -/
theorem movement_thresholds_strict :
    (∀ current previous : Pose,
      detectHeadMovement current previous ↔
        (|current.1 - previous.1| > 0.1 ∨ |current.2.1 - previous.2.1| > 0.1 ∨
          |current.2.2 - previous.2.2| > 0.1)) ∧
    (∀ current previous : List Point,
      current.length = 2 → previous.length = 2 →
      (detectShoulderMovement current previous ↔
        (((current.getD 0 (0, 0)).1 - (previous.getD 0 (0, 0)).1) ^ 2 +
            ((current.getD 0 (0, 0)).2 - (previous.getD 0 (0, 0)).2) ^ 2 > 100 ∨
          ((current.getD 1 (0, 0)).1 - (previous.getD 1 (0, 0)).1) ^ 2 +
            ((current.getD 1 (0, 0)).2 - (previous.getD 1 (0, 0)).2) ^ 2 > 100))) := by
  constructor
  · intro c p
    exact Iff.rfl
  · intro c p hc hp
    have hsq : ∀ a b : ℝ, cvNorm (a, b) > 10 ↔ a ^ 2 + b ^ 2 > 100 := by
      intro a b
      unfold cvNorm
      rw [gt_iff_lt, Real.lt_sqrt (by norm_num)]
      norm_num
    simp only [detectShoulderMovement]
    rw [if_pos ⟨hc, hp⟩]
    rw [hsq, hsq]

/-- Witness for `movement_thresholds_strict`: deltas exactly at the
thresholds (pose delta 0.1; shoulder displacement 10 = √(6²+8²)) do not
flag movement, while deltas strictly above them do. -/
theorem movement_thresholds_strict_witness :
    (¬ detectHeadMovement (0.1, 0, 0) (0, 0, 0)) ∧
    detectHeadMovement (0.2, 0, 0) (0, 0, 0) ∧
    (¬ detectShoulderMovement [(6, 8), (0, 0)] [(0, 0), (0, 0)]) ∧
    detectShoulderMovement [(20, 0), (0, 0)] [(0, 0), (0, 0)] := by
  refine ⟨?_, ?_, ?_, ?_⟩
  · rw [movement_thresholds_strict.1]
    push_neg
    norm_num [abs_le]
  · rw [movement_thresholds_strict.1]
    norm_num [lt_abs]
  · rw [movement_thresholds_strict.2 _ _ (by simp) (by simp)]
    norm_num
  · rw [movement_thresholds_strict.2 _ _ (by simp) (by simp)]
    norm_num

/-! ## Engine state, calibration and the per-frame pipeline -/

/-- The inter-frame and configuration state owned by one `TrackingEngine`
instance (tracking_engine.h:133-152).  The per-backend lazy-load state is
modelled separately by `LoadState` / `YoloState` above, since detection
results enter `processFrame` as oracle parameters. -/
structure EngineState where
  focal_length : ℝ
  principal_point : Point
  calibrated : Bool
  previous_head_pose : Pose
  previous_shoulder_points : List Point
  calibration_points : List Point
  active_backend : FaceDetectorBackend

/-- `TrackingEngine::startCalibration` (tracking_engine.cpp:152-155). -/
def startCalibration (st : EngineState) : EngineState :=
  { st with calibration_points := [], calibrated := false }

/-- `TrackingEngine::addCalibrationPoint` (tracking_engine.cpp:157-159). -/
def addCalibrationPoint (st : EngineState) (point : Point) : EngineState :=
  { st with calibration_points := st.calibration_points ++ [point] }

/-- `TrackingEngine::finishCalibration` (tracking_engine.cpp:161-165): sets
the calibrated flag only when at least 4 points were collected, and leaves
it untouched otherwise. -/
def finishCalibration (st : EngineState) : EngineState :=
  if 4 ≤ st.calibration_points.length then { st with calibrated := true }
  else st

/-- `TrackingEngine::isCalibrated` (tracking_engine.h:92). -/
def isCalibrated (st : EngineState) : Bool := st.calibrated

/-- `TrackingEngine::calculateFaceDistance` (tracking_engine.cpp:628-639):
pinhole model with an assumed 14 cm face width. -/
noncomputable def calculateFaceDistance (face_roi : Rect) (focal_length : ℝ) :
    ℝ :=
  if 0 < (face_roi.w : ℝ) ∧ 0 < focal_length then
    (14 * focal_length) / (face_roi.w : ℝ)
  else 0

/-- The face-region resolution step of `processFrame`
(tracking_engine.cpp:98-103): a non-degenerate caller override is clamped
and used directly, otherwise the detector selector runs (its per-backend
results being the oracles) and its result is clamped. -/
def resolvedFaceROI (backend : FaceDetectorBackend) (w h : ℤ)
    (override_face : Option Rect) (yolo yunet haar : Rect) : Rect :=
  match override_face with
  | some o =>
    if 0 < o.w ∧ 0 < o.h then clampRectToFrame o ⟨w, h⟩
    else clampRectToFrame (detectFace backend yolo yunet haar) ⟨w, h⟩
  | none => clampRectToFrame (detectFace backend yolo yunet haar) ⟨w, h⟩

/-- `TrackingResult` (tracking_engine.h:37-48), restricted to the fields the
minimal-feature pipeline writes; comparisons of real values are `Prop`s. -/
structure TrackingResult where
  face_detected : Bool
  face_rect_x : ℝ
  face_rect_y : ℝ
  face_rect_width : ℝ
  face_rect_height : ℝ
  face_distance : ℝ
  gaze_angle_x : ℝ
  gaze_angle_y : ℝ
  eyes_focused : Prop
  head_moving : Prop
  shoulders_moving : Prop

/-- The zero-initialised result (`TrackingResult result = {}` plus the
explicit false/zero writes, tracking_engine.cpp:77-82). -/
def defaultResult : TrackingResult :=
  ⟨false, 0, 0, 0, 0, 0, 0, 0, False, False, False⟩

/-- `TrackingEngine::processFrame` (tracking_engine.cpp:67-150).  The frame
is its dimensions `w × h` plus the oracle outputs of the external
detectors: per-backend face regions, the two (distinct) eye-cascade runs,
and the shoulder contour candidates.  Returns the result together with the
updated engine state.  `estimateHeadPose` is `none` only on landmark lists
the pipeline never produces (`landmarks_pose_index_safety`); the source
has no fallback there, and the embedding uses the zero pose. -/
noncomputable def processFrame (st : EngineState) (w h : ℤ)
    (override_face : Option Rect) (yolo yunet haar : Rect)
    (eyeRects lmEyes : List Rect) (shoulderCands : List (Rect × ℚ)) :
    TrackingResult × EngineState :=
  if w ≤ 0 ∨ h ≤ 0 then (defaultResult, st)
  else
    let face_roi := resolvedFaceROI st.active_backend w h override_face
      yolo yunet haar
    if 0 < face_roi.w ∧ 0 < face_roi.h then
      let frame_width : ℝ := if 0 < w then (w : ℝ) else 1
      let frame_height : ℝ := if 0 < h then (h : ℝ) else 1
      let eye_points := detectEyes eyeRects
      let gaze := estimateGaze eye_points
      let face_points := detectFaceLandmarks lmEyes face_roi
      let head_pose := (estimateHeadPose face_points).getD (0, 0, 0)
      let shoulder_points := detectShoulders shoulderCands w h
      ({ face_detected := true
         face_rect_x := (face_roi.x : ℝ) / frame_width
         face_rect_y := (face_roi.y : ℝ) / frame_height
         face_rect_width := (face_roi.w : ℝ) / frame_width
         face_rect_height := (face_roi.h : ℝ) / frame_height
         face_distance := calculateFaceDistance face_roi st.focal_length
         gaze_angle_x := if 4 ≤ eye_points.length then gaze.1 else 0
         gaze_angle_y := if 4 ≤ eye_points.length then gaze.2 else 0
         eyes_focused :=
           if 4 ≤ eye_points.length then |gaze.1| < 0.1 ∧ |gaze.2| < 0.1
           else False
         head_moving :=
           if 0 < face_points.length then
             detectHeadMovement head_pose st.previous_head_pose
           else False
         shoulders_moving :=
           detectShoulderMovement shoulder_points st.previous_shoulder_points },
       { st with
         previous_head_pose :=
           if 0 < face_points.length then head_pose else st.previous_head_pose
         previous_shoulder_points := shoulder_points })
    else (defaultResult, st)

/-- C9: starting calibration, adding exactly the points of `points`, then
finishing, leaves `isCalibrated` equal to whether at least 4 points were
added; in particular false after 3 points and true after 4. -/
theorem calibration_four_points (st : EngineState) (points : List Point) :
    isCalibrated
        (finishCalibration
          (points.foldl addCalibrationPoint (startCalibration st))) =
      decide (4 ≤ points.length) := by
  have hfold : ∀ (l : List Point) (s : EngineState),
      (l.foldl addCalibrationPoint s).calibration_points =
          s.calibration_points ++ l ∧
        (l.foldl addCalibrationPoint s).calibrated = s.calibrated := by
    intro l
    induction l with
    | nil => intro s; simp
    | cons a t ih =>
      intro s
      obtain ⟨h1, h2⟩ := ih (addCalibrationPoint s a)
      rw [List.foldl_cons]
      constructor
      · rw [h1]
        simp [addCalibrationPoint]
      · rw [h2]
        simp [addCalibrationPoint]
  obtain ⟨h1, h2⟩ := hfold points (startCalibration st)
  unfold finishCalibration isCalibrated
  split
  · rename_i hc
    rw [h1] at hc
    simp only [startCalibration, List.nil_append] at hc
    simp [hc]
  · rename_i hc
    rw [h1] at hc
    simp only [startCalibration, List.nil_append] at hc
    rw [h2]
    simp [startCalibration, hc]

lemma clampRectToFrame_pos_size (r : Rect) (s : Size)
    (h : 0 < (clampRectToFrame r s).w) : 0 < s.width ∧ 0 < s.height := by
  unfold clampRectToFrame at h
  split at h
  · simp [emptyRect] at h
  · rename_i hc
    push_neg at hc
    exact ⟨hc.2.2.1, hc.2.2.2⟩

lemma resolvedFaceROI_pos_size (b : FaceDetectorBackend) (w h : ℤ)
    (ov : Option Rect) (yolo yunet haar : Rect)
    (hpos : 0 < (resolvedFaceROI b w h ov yolo yunet haar).w) :
    0 < w ∧ 0 < h := by
  unfold resolvedFaceROI at hpos
  have : ∀ r : Rect, 0 < (clampRectToFrame r ⟨w, h⟩).w → 0 < w ∧ 0 < h :=
    fun r hr => clampRectToFrame_pos_size r ⟨w, h⟩ hr
  match ov with
  | some o =>
    simp only at hpos
    split at hpos
    · exact this o hpos
    · exact this _ hpos
  | none => exact this _ hpos

/-- C5: every `processFrame` call with a resolved (positive-extent) face
region overwrites the stored previous head pose (with the freshly estimated
pose) and previous shoulder points (with the fresh shoulder estimate)
unconditionally, leaving the calibration state untouched; a call with no
resolved face region leaves the whole engine state unchanged. -/
theorem processFrame_state_mutation (st : EngineState) (w h : ℤ)
    (ov : Option Rect) (yolo yunet haar : Rect) (eyeRects lmEyes : List Rect)
    (sc : List (Rect × ℚ)) :
    (0 < (resolvedFaceROI st.active_backend w h ov yolo yunet haar).w ∧
        0 < (resolvedFaceROI st.active_backend w h ov yolo yunet haar).h →
      (processFrame st w h ov yolo yunet haar eyeRects lmEyes
          sc).2.previous_shoulder_points = detectShoulders sc w h ∧
      estimateHeadPose (detectFaceLandmarks lmEyes
          (resolvedFaceROI st.active_backend w h ov yolo yunet haar)) =
        some (processFrame st w h ov yolo yunet haar eyeRects lmEyes
          sc).2.previous_head_pose ∧
      (processFrame st w h ov yolo yunet haar eyeRects lmEyes
          sc).2.calibration_points = st.calibration_points ∧
      (processFrame st w h ov yolo yunet haar eyeRects lmEyes
          sc).2.calibrated = st.calibrated) ∧
    (¬ (0 < (resolvedFaceROI st.active_backend w h ov yolo yunet haar).w ∧
        0 < (resolvedFaceROI st.active_backend w h ov yolo yunet haar).h) →
      (processFrame st w h ov yolo yunet haar eyeRects lmEyes sc).2 = st) := by
  constructor
  · intro hroi
    obtain ⟨hw, hh⟩ := resolvedFaceROI_pos_size st.active_backend w h ov
      yolo yunet haar hroi.1
    have hlm : 0 < (detectFaceLandmarks lmEyes
        (resolvedFaceROI st.active_backend w h ov yolo yunet haar)).length := by
      rcases detectFaceLandmarks_length_cases lmEyes
        (resolvedFaceROI st.active_backend w h ov yolo yunet haar) with h' | h' <;>
        omega
    obtain ⟨p, hp⟩ := Option.isSome_iff_exists.mp
      (estimateHeadPose_landmarks_isSome lmEyes
        (resolvedFaceROI st.active_backend w h ov yolo yunet haar))
    simp only [processFrame]
    rw [if_neg (by omega), if_pos hroi]
    refine ⟨rfl, ?_, rfl, rfl⟩
    simp only [if_pos hlm, hp, Option.getD_some]
  · intro hroi
    simp only [processFrame]
    by_cases hwh : w ≤ 0 ∨ h ≤ 0
    · rw [if_pos hwh]
    · rw [if_neg hwh, if_neg hroi]

/-- A concrete engine state for witness instantiations: defaults as set by
the `TrackingEngine` constructor. -/
noncomputable def engA : EngineState :=
  ⟨2000, (0, 0), false, (0, 0, 0), [], [], FaceDetectorBackend.Auto⟩

/-- Witness for `processFrame_state_mutation`: a frame with a caller
override region resolves a face and the stored previous pose and shoulder
points are overwritten while calibration state is untouched. -/
theorem processFrame_state_mutation_witness :
    (processFrame engA 100 100 (some ⟨10, 10, 50, 50⟩) emptyRect emptyRect
        emptyRect [] [] []).2.previous_shoulder_points =
      detectShoulders [] 100 100 ∧
    estimateHeadPose (detectFaceLandmarks []
        (resolvedFaceROI engA.active_backend 100 100 (some ⟨10, 10, 50, 50⟩)
          emptyRect emptyRect emptyRect)) =
      some (processFrame engA 100 100 (some ⟨10, 10, 50, 50⟩) emptyRect
        emptyRect emptyRect [] [] []).2.previous_head_pose ∧
    (processFrame engA 100 100 (some ⟨10, 10, 50, 50⟩) emptyRect emptyRect
        emptyRect [] [] []).2.calibration_points = engA.calibration_points ∧
    (processFrame engA 100 100 (some ⟨10, 10, 50, 50⟩) emptyRect emptyRect
        emptyRect [] [] []).2.calibrated = engA.calibrated :=
  (processFrame_state_mutation engA 100 100 (some ⟨10, 10, 50, 50⟩)
      emptyRect emptyRect emptyRect [] [] []).1 (by constructor <;> decide)

/-- C7: with fewer than 4 eye points the gaze estimate is `(0, 0)`, and a
`processFrame` call whose eye detector returns fewer than 4 candidates
leaves the result's gaze angles at zero and its `eyes_focused` flag at the
default false. -/
theorem gaze_requires_four_points :
    (∀ eye_points : List Point, eye_points.length < 4 →
      estimateGaze eye_points = (0, 0)) ∧
    (∀ (st : EngineState) (w h : ℤ) (ov : Option Rect)
        (yolo yunet haar : Rect) (eyeRects lmEyes : List Rect)
        (sc : List (Rect × ℚ)), eyeRects.length < 4 →
      ¬ (processFrame st w h ov yolo yunet haar eyeRects lmEyes
          sc).1.eyes_focused ∧
      (processFrame st w h ov yolo yunet haar eyeRects lmEyes
          sc).1.gaze_angle_x = 0 ∧
      (processFrame st w h ov yolo yunet haar eyeRects lmEyes
          sc).1.gaze_angle_y = 0) := by
  constructor
  · intro eye_points hlt
    unfold estimateGaze
    rw [if_pos hlt]
  · intro st w h ov yolo yunet haar eyeRects lmEyes sc hlt
    have hlen : ¬ 4 ≤ (detectEyes eyeRects).length := by
      unfold detectEyes
      rw [List.length_map]
      omega
    simp only [processFrame]
    by_cases hwh : w ≤ 0 ∨ h ≤ 0
    · rw [if_pos hwh]
      exact ⟨not_false, rfl, rfl⟩
    · rw [if_neg hwh]
      by_cases hroi : 0 < (resolvedFaceROI st.active_backend w h ov yolo
          yunet haar).w ∧ 0 < (resolvedFaceROI st.active_backend w h ov yolo
          yunet haar).h
      · rw [if_pos hroi]
        exact ⟨by simp [if_neg hlen], by simp [if_neg hlen], by simp [if_neg hlen]⟩
      · rw [if_neg hroi]
        exact ⟨not_false, rfl, rfl⟩

/-- Witness for `gaze_requires_four_points`: two eye points give the zero
gaze, and a frame whose eye detector finds nothing reports unfocused eyes
and zero gaze angles. -/
theorem gaze_requires_four_points_witness :
    estimateGaze [(1, 2), (3, 4)] = (0, 0) ∧
    (¬ (processFrame engA 100 100 (some ⟨10, 10, 50, 50⟩) emptyRect emptyRect
        emptyRect [] [] []).1.eyes_focused ∧
      (processFrame engA 100 100 (some ⟨10, 10, 50, 50⟩) emptyRect emptyRect
        emptyRect [] [] []).1.gaze_angle_x = 0 ∧
      (processFrame engA 100 100 (some ⟨10, 10, 50, 50⟩) emptyRect emptyRect
        emptyRect [] [] []).1.gaze_angle_y = 0) :=
  ⟨gaze_requires_four_points.1 [(1, 2), (3, 4)] (by simp),
   gaze_requires_four_points.2 engA 100 100 (some ⟨10, 10, 50, 50⟩)
     emptyRect emptyRect emptyRect [] [] [] (by simp)⟩

end EyeTracking
